import Mathlib

/-!
Shallow embedding of the game-simulation core of the `invador` arcade
shooter (the zustand game store and the level-progression module), with
theorems checking the specification's claims against it.

Numbers of the JavaScript source are modelled as exact rationals (`ℚ`);
`Math.floor` becomes `Int.floor`.  Level numbers and other integer
quantities are `ℤ`/`ℕ`.  `Date.now()`, `Math.random()` and the
transcendental `Math` functions are injected through a context record
(`Ctx`), following the source's own design note that RNG and clock should
be injectable; randomness is consumed from a stream `rand : ℕ → ℚ`
through an explicit cursor threaded in source order.
-/

namespace Invador

/-! ## Level progression (`src/app/lib/game/levels.ts`) -/

/-- `LEVEL_PROGRESSION.EARLY_POINTS_PER_LEVEL`. -/
def EARLY_POINTS_PER_LEVEL : ℚ := 1000

/-- `LEVEL_PROGRESSION.LATE_POINTS_MULTIPLIER` (`1.5`). -/
def LATE_POINTS_MULTIPLIER : ℚ := 3 / 2

/-- The `while` loop of `calculateLevelFromScore` (levels.ts lines 27-31):
state is `(currentLevel, currentRequirement, totalUsed)`; the loop runs while
`totalUsed + currentRequirement <= remainingScore`.  The loop terminates in the
source because the requirement grows geometrically; here it is given explicit
fuel, chosen at the call site large enough to cover every possible iteration
(lemma `calcLoop_spec` below characterises the result independently of fuel). -/
def calcLoop : ℕ → ℤ → ℚ → ℚ → ℚ → ℤ
  | 0, currentLevel, _, _, _ => currentLevel
  | fuel + 1, currentLevel, currentRequirement, totalUsed, remainingScore =>
    if totalUsed + currentRequirement ≤ remainingScore then
      calcLoop fuel (currentLevel + 1) (currentRequirement * LATE_POINTS_MULTIPLIER)
        (totalUsed + currentRequirement) remainingScore
    else
      currentLevel

/-- `calculateLevelFromScore` (levels.ts lines 13-35). -/
def calculateLevelFromScore (score : ℚ) : ℤ :=
  if score < EARLY_POINTS_PER_LEVEL * 5 then
    ⌊score / EARLY_POINTS_PER_LEVEL⌋ + 1
  else
    let baseScore := EARLY_POINTS_PER_LEVEL * 5
    let remainingScore := score - baseScore
    calcLoop ((⌊remainingScore / 1500⌋).toNat + 1) 5
      (EARLY_POINTS_PER_LEVEL * LATE_POINTS_MULTIPLIER) 0 remainingScore

/-- The `for` loop of `getScoreForNextLevel` (levels.ts lines 46-49), running
`level = 6 .. currentLevel`, i.e. `currentLevel - 5` iterations. -/
def nextLevelLoop : ℕ → ℚ → ℚ → ℚ
  | 0, totalScore, _ => totalScore
  | m + 1, totalScore, requirement =>
    nextLevelLoop m (totalScore + requirement) (requirement * LATE_POINTS_MULTIPLIER)

/-- `getScoreForNextLevel` (levels.ts lines 38-53). -/
def getScoreForNextLevel (currentLevel : ℤ) : ℚ :=
  if currentLevel ≤ 5 then
    (currentLevel : ℚ) * EARLY_POINTS_PER_LEVEL
  else
    nextLevelLoop (currentLevel - 5).toNat (EARLY_POINTS_PER_LEVEL * 5)
      (EARLY_POINTS_PER_LEVEL * LATE_POINTS_MULTIPLIER)

/-- `getSpawnRate` (levels.ts lines 146-152). -/
def getSpawnRate (level : ℤ) : ℚ :=
  max 400 (2000 - ((level : ℚ) - 1) * 50)

/-- `getMaxEnemiesForLevel` (levels.ts lines 155-161). -/
def getMaxEnemiesForLevel (level : ℤ) : ℤ :=
  min 25 (8 + ((level - 1).fdiv 2) * 1)

/-! ## Data model (`src/app/lib/game/types.ts`, feature-complete revision) -/

/-- The `EnemyType` string union. -/
inductive EnemyType
  | basic | fast | heavy | shooter | kamikaze | shielded | regenerator
  | miniBoss | boss | megaBoss | swarm | elite
  deriving DecidableEq, Repr

/-- `type.includes('boss')` on the enemy-type strings (`'mini-boss'`,
`'boss'`, `'mega-boss'` all contain `'boss'`). -/
def EnemyType.isBossFamily : EnemyType → Bool
  | .miniBoss | .boss | .megaBoss => true
  | _ => false

/-- The `MovementPattern` string union. -/
inductive MovementPattern
  | linear | sine | zigzag | spiral | stationary | diagonal
  | circle | formation | aggressive | evasive | teleport
  deriving DecidableEq, Repr

/-- The `AttackPattern` string union. -/
inductive AttackPattern
  | none | single | burst | spread | homing | laser | missile
  | shieldBreak | emp | spawnMinions
  deriving DecidableEq, Repr

/-- The `BulletType` string union. -/
inductive BulletType
  | basic | laser | spread | homing | piercing | explosive | plasma
  | energy | multiShot
  deriving DecidableEq, Repr

/-- The `BulletOwner` string union. -/
inductive BulletOwner
  | player | enemy
  deriving DecidableEq, Repr

/-- The `PowerUpType` string union. -/
inductive PowerUpType
  | health | weapon | shield | ship | multishot | speed | rapidFire
  | piercing | homing | extraLife | scoreBoost | invincibility
  deriving DecidableEq, Repr

/-- Power-up rarity union. -/
inductive Rarity
  | common | rare | epic | legendary
  deriving DecidableEq, Repr

/-- The `GameState` string union. -/
inductive GameState
  | menu | playing | paused | gameOver | settings | highScores | levelTransition
  deriving DecidableEq, Repr

/-- `Position` / `Velocity` (an `{x, y}` pair). -/
structure Vec2 where
  x : ℚ
  y : ℚ
  deriving DecidableEq, Repr

/-- `Size`. -/
structure Size where
  width : ℚ
  height : ℚ
  deriving DecidableEq, Repr

/-- `Player` (entity base fields plus player fields; `shipUpgradeTime` is
the countdown the store reads and writes on the player record). -/
structure Player where
  id : String
  position : Vec2
  velocity : Vec2
  size : Size
  health : ℚ
  maxHealth : ℚ
  isActive : Bool
  score : ℚ
  lives : ℕ
  weaponLevel : ℕ
  shipLevel : ℕ
  shipUpgradeTime : ℚ
  invulnerable : Bool
  invulnerabilityTime : ℚ
  deriving DecidableEq, Repr

/-- `Enemy`. -/
structure Enemy where
  id : String
  position : Vec2
  velocity : Vec2
  size : Size
  health : ℚ
  maxHealth : ℚ
  isActive : Bool
  type : EnemyType
  points : ℚ
  shootCooldown : ℚ
  lastShot : ℚ
  movementPattern : MovementPattern
  attackPattern : AttackPattern
  level : ℤ
  armor : ℚ
  shield : ℚ
  maxShield : ℚ
  specialAbilityCharge : ℚ
  spawnTime : ℚ
  lastAbilityUse : ℚ
  deriving DecidableEq, Repr

/-- `Bullet`. -/
structure Bullet where
  id : String
  position : Vec2
  velocity : Vec2
  size : Size
  health : ℚ
  maxHealth : ℚ
  isActive : Bool
  damage : ℚ
  owner : BulletOwner
  bulletType : BulletType
  piercing : Bool
  explosive : Bool
  deriving DecidableEq, Repr

/-- `PowerUp`. -/
structure PowerUp where
  id : String
  position : Vec2
  velocity : Vec2
  size : Size
  health : ℚ
  maxHealth : ℚ
  isActive : Bool
  type : PowerUpType
  duration : ℚ
  rarity : Rarity
  deriving DecidableEq, Repr

/-- `Particle`. -/
structure Particle where
  id : String
  position : Vec2
  velocity : Vec2
  size : Size
  health : ℚ
  maxHealth : ℚ
  isActive : Bool
  lifetime : ℚ
  maxLifetime : ℚ
  color : String
  alpha : ℚ
  deriving DecidableEq, Repr

/-- `Explosion`. -/
structure Explosion where
  id : String
  position : Vec2
  size : Size
  currentFrame : ℤ
  totalFrames : ℤ
  frameTime : ℚ
  lifetime : ℚ
  isActive : Bool
  deriving DecidableEq, Repr

/-- `InputState`. -/
structure InputState where
  left : Bool
  right : Bool
  up : Bool
  down : Bool
  shoot : Bool
  pause : Bool
  deriving DecidableEq, Repr

/-- `GameConfig` (flattened nesting of the `DEFAULT_CONFIG` shape). -/
structure GameConfig where
  canvasWidth : ℚ
  canvasHeight : ℚ
  playerSpeed : ℚ
  playerSize : Size
  maxLives : ℕ
  invulnerabilityDuration : ℚ
  enemiesSpawnRate : ℚ
  enemiesSpeed : ℚ
  enemiesMaxOnScreen : ℕ
  bulletsSpeed : ℚ
  bulletsMaxOnScreen : ℕ
  difficultyLevel : ℤ
  enemySpeedMultiplier : ℚ
  enemySpawnRateMultiplier : ℚ
  enemyHealthMultiplier : ℚ
  scoreMultiplier : ℚ
  deriving DecidableEq, Repr

/-- `GameStats`. -/
structure GameStats where
  totalEnemiesDestroyed : ℕ
  totalBulletsFired : ℕ
  totalPowerUpsCollected : ℕ
  highestLevel : ℤ
  totalPlayTime : ℚ
  accuracy : ℚ
  bossesDefeated : ℕ
  perfectLevels : ℕ
  deriving DecidableEq, Repr

/-- `HighScore`. -/
structure HighScore where
  id : String
  playerName : String
  score : ℚ
  level : ℤ
  date : String
  duration : ℚ
  deriving DecidableEq, Repr

/-- Difficulty setting union. -/
inductive Difficulty
  | easy | normal | hard | nightmare
  deriving DecidableEq, Repr

/-- `GameSettings` (controls as the six named bindings the store uses). -/
structure GameSettings where
  masterVolume : ℚ
  musicVolume : ℚ
  sfxVolume : ℚ
  muted : Bool
  graphicsParticles : Bool
  screenShake : Bool
  vsync : Bool
  controlLeft : String
  controlRight : String
  controlUp : String
  controlDown : String
  controlShoot : String
  controlPause : String
  difficulty : Difficulty
  deriving DecidableEq, Repr

/-- The state portion of the zustand `GameStore` (all non-function fields). -/
structure GameStore where
  gameState : GameState
  isRunning : Bool
  isPaused : Bool
  gameTime : ℚ
  level : ℤ
  lastLevelCheck : ℚ
  isBossBattle : Bool
  player : Player
  enemies : List Enemy
  bullets : List Bullet
  powerUps : List PowerUp
  particles : List Particle
  explosions : List Explosion
  inputState : InputState
  config : GameConfig
  settings : GameSettings
  highScores : List HighScore
  stats : GameStats
  lastFrameTime : ℚ
  deltaTime : ℚ
  lastSpawnTime : ℚ
  deriving DecidableEq, Repr

/-- Injected environment: `Date.now()`, `Math.random()` (a stream read at an
explicit cursor), and the transcendental `Math` functions. -/
structure Ctx where
  now : ℚ
  rand : ℕ → ℚ
  msin : ℚ → ℚ
  mcos : ℚ → ℚ
  msqrt : ℚ → ℚ

/-! ## Enemy stat tables (`levels.ts`, continued) -/

/-- Per-type base stats record of `getEnemyStats`. -/
structure BaseStats where
  health : ℚ
  points : ℚ
  speed : ℚ
  armor : ℚ
  shield : ℚ
  deriving DecidableEq, Repr

/-- The `baseStats` table (levels.ts lines 57-70). -/
def baseStatsFor : EnemyType → BaseStats
  | .basic => ⟨25, 50, 80, 0, 0⟩
  | .fast => ⟨15, 75, 150, 0, 0⟩
  | .heavy => ⟨75, 100, 50, 2, 0⟩
  | .shooter => ⟨40, 125, 70, 0, 0⟩
  | .kamikaze => ⟨20, 80, 200, 0, 0⟩
  | .shielded => ⟨50, 150, 60, 1, 25⟩
  | .regenerator => ⟨60, 175, 65, 0, 0⟩
  | .swarm => ⟨10, 25, 120, 0, 0⟩
  | .elite => ⟨100, 200, 90, 2, 50⟩
  | .miniBoss => ⟨200, 500, 80, 3, 100⟩
  | .boss => ⟨500, 1000, 60, 5, 200⟩
  | .megaBoss => ⟨1000, 2500, 70, 8, 400⟩

/-- Result record of `getEnemyStats`. -/
structure EnemyStats where
  health : ℚ
  maxHealth : ℚ
  points : ℚ
  speed : ℚ
  armor : ℚ
  shield : ℚ
  maxShield : ℚ
  deriving DecidableEq, Repr

/-- `getEnemyStats` (levels.ts lines 56-86); the `Math.pow` level scalings use
nonnegative integer exponents (`level - 1`, levels start at 1). -/
def getEnemyStats (type : EnemyType) (level : ℤ) : EnemyStats :=
  let base := baseStatsFor type
  let healthMultiplier : ℚ := (12 / 10 : ℚ) ^ (level - 1).toNat
  let speedMultiplier : ℚ := (11 / 10 : ℚ) ^ (level - 1).toNat
  let pointsMultiplier : ℚ := (115 / 100 : ℚ) ^ (level - 1).toNat
  { health := (⌊base.health * healthMultiplier⌋ : ℤ)
    maxHealth := (⌊base.health * healthMultiplier⌋ : ℤ)
    points := (⌊base.points * pointsMultiplier⌋ : ℤ)
    speed := (⌊base.speed * speedMultiplier⌋ : ℤ)
    armor := base.armor + ((level.fdiv 3 : ℤ) : ℚ)
    shield := (⌊base.shield * healthMultiplier⌋ : ℤ)
    maxShield := (⌊base.shield * healthMultiplier⌋ : ℤ) }

/-- `getMovementPattern` (levels.ts lines 89-105). -/
def getMovementPattern : EnemyType → MovementPattern
  | .basic => .linear
  | .fast => .zigzag
  | .heavy => .linear
  | .shooter => .sine
  | .kamikaze => .aggressive
  | .shielded => .diagonal
  | .regenerator => .evasive
  | .swarm => .formation
  | .elite => .circle
  | .miniBoss => .sine
  | .boss => .circle
  | .megaBoss => .teleport

/-- `getAttackPattern` (levels.ts lines 108-124). -/
def getAttackPattern : EnemyType → AttackPattern
  | .basic => .none
  | .fast => .none
  | .heavy => .single
  | .shooter => .burst
  | .kamikaze => .none
  | .shielded => .single
  | .regenerator => .spread
  | .swarm => .none
  | .elite => .homing
  | .miniBoss => .missile
  | .boss => .laser
  | .megaBoss => .spawnMinions

/-- `getAvailableEnemyTypes` (levels.ts lines 127-143).  The three boss rolls
call `Math.random()` only when the level guard passes (`&&` short-circuits),
so the rand cursor advances conditionally, in source order. -/
def getAvailableEnemyTypes (ctx : Ctx) (level : ℤ) (k : ℕ) :
    List EnemyType × ℕ :=
  let types : List EnemyType := [.basic]
  let types := types ++ (if level ≥ 2 then [.fast] else [])
  let types := types ++ (if level ≥ 3 then [.heavy] else [])
  let types := types ++ (if level ≥ 4 then [.shooter] else [])
  let types := types ++ (if level ≥ 5 then [.kamikaze] else [])
  let types := types ++ (if level ≥ 6 then [.shielded] else [])
  let types := types ++ (if level ≥ 7 then [.regenerator] else [])
  let types := types ++ (if level ≥ 8 then [.elite] else [])
  let types := types ++ (if level ≥ 9 then [.swarm] else [])
  let (types, k) :=
    if level ≥ 10 then
      (types ++ (if ctx.rand k < 1 / 10 then [.miniBoss] else []), k + 1)
    else (types, k)
  let (types, k) :=
    if level ≥ 15 then
      (types ++ (if ctx.rand k < 5 / 100 then [.boss] else []), k + 1)
    else (types, k)
  let (types, k) :=
    if level ≥ 20 then
      (types ++ (if ctx.rand k < 2 / 100 then [.megaBoss] else []), k + 1)
    else (types, k)
  (types, k)

/-! ## Collision primitive (`isColliding`, services module) -/

/-- The structural `{ position, size }` argument type of `isColliding`. -/
structure Rect where
  position : Vec2
  size : Size

/-- `isColliding` (strict AABB overlap). -/
def isColliding (a b : Rect) : Bool :=
  a.position.x < b.position.x + b.size.width &&
  a.position.x + a.size.width > b.position.x &&
  a.position.y < b.position.y + b.size.height &&
  a.position.y + a.size.height > b.position.y

/-- View a player as its `{position, size}` rectangle. -/
def Player.rect (p : Player) : Rect := ⟨p.position, p.size⟩

/-- View an enemy as its `{position, size}` rectangle. -/
def Enemy.rect (e : Enemy) : Rect := ⟨e.position, e.size⟩

/-- View a bullet as its `{position, size}` rectangle. -/
def Bullet.rect (b : Bullet) : Rect := ⟨b.position, b.size⟩

/-- View a power-up as its `{position, size}` rectangle. -/
def PowerUp.rect (p : PowerUp) : Rect := ⟨p.position, p.size⟩

/-! ## Store actions (`src/app/components/ui/toast.tsx`, embedded store) -/

/-- Render a rational for use inside a template-literal entity id. -/
def qstr (q : ℚ) : String := toString q

/-- `createInitialPlayer` (store lines 297-312). -/
def createInitialPlayer : Player :=
  { id := "player", position := ⟨400, 550⟩, velocity := ⟨0, 0⟩,
    size := ⟨40, 40⟩, health := 100, maxHealth := 100, isActive := true,
    score := 0, lives := 3, weaponLevel := 1, shipLevel := 1,
    shipUpgradeTime := 0, invulnerable := false, invulnerabilityTime := 0 }

/-- `addEnemy` (appends to the collection). -/
def addEnemy (s : GameStore) (enemy : Enemy) : GameStore :=
  { s with enemies := s.enemies ++ [enemy] }

/-- `removeEnemy` (filters the collection by id). -/
def removeEnemy (s : GameStore) (id : String) : GameStore :=
  { s with enemies := s.enemies.filter (fun e => decide (e.id ≠ id)) }

/-- `addBullet`. -/
def addBullet (s : GameStore) (bullet : Bullet) : GameStore :=
  { s with bullets := s.bullets ++ [bullet] }

/-- `removeBullet`. -/
def removeBullet (s : GameStore) (id : String) : GameStore :=
  { s with bullets := s.bullets.filter (fun b => decide (b.id ≠ id)) }

/-- `addPowerUp`. -/
def addPowerUp (s : GameStore) (powerUp : PowerUp) : GameStore :=
  { s with powerUps := s.powerUps ++ [powerUp] }

/-- `removePowerUp`. -/
def removePowerUp (s : GameStore) (id : String) : GameStore :=
  { s with powerUps := s.powerUps.filter (fun p => decide (p.id ≠ id)) }

/-- `addParticle`. -/
def addParticle (s : GameStore) (particle : Particle) : GameStore :=
  { s with particles := s.particles ++ [particle] }

/-- `addExplosion`. -/
def addExplosion (s : GameStore) (explosion : Explosion) : GameStore :=
  { s with explosions := s.explosions ++ [explosion] }

/-- `incrementStat('totalEnemiesDestroyed')`. -/
def incrementEnemiesDestroyed (s : GameStore) : GameStore :=
  { s with stats :=
      { s.stats with totalEnemiesDestroyed := s.stats.totalEnemiesDestroyed + 1 } }

/-- `incrementStat('totalBulletsFired', amount)`. -/
def incrementBulletsFired (s : GameStore) (amount : ℕ) : GameStore :=
  { s with stats :=
      { s.stats with totalBulletsFired := s.stats.totalBulletsFired + amount } }

/-- `incrementStat('totalPowerUpsCollected')`. -/
def incrementPowerUpsCollected (s : GameStore) : GameStore :=
  { s with stats :=
      { s.stats with totalPowerUpsCollected := s.stats.totalPowerUpsCollected + 1 } }

/-- `pauseGame` (store line 386). -/
def pauseGame (s : GameStore) : GameStore :=
  { s with gameState := GameState.paused, isPaused := true }

/-- `resumeGame` (store line 387). -/
def resumeGame (s : GameStore) : GameStore :=
  { s with gameState := GameState.playing, isPaused := false }

/-- `endGame` (store lines 388-390). -/
def endGame (s : GameStore) : GameStore :=
  { s with gameState := GameState.gameOver, isRunning := false }

/-- `checkLevelAdvancement` (store lines 406-444). -/
def checkLevelAdvancement (s : GameStore) : GameStore :=
  let level := s.level
  let player := s.player
  let nextLevel := calculateLevelFromScore player.score
  if s.isBossBattle then
    let bossEnemies := s.enemies.filter (fun e => decide (e.type = EnemyType.boss))
    if bossEnemies.length = 0 then
      let s := { s with level := level + 1, isBossBattle := false }
      { s with stats :=
          { s.stats with highestLevel := max s.stats.highestLevel (level + 1) } }
    else s
  else
    if nextLevel > level then
      let s :=
        if nextLevel % 10 = 0 then { s with level := nextLevel, isBossBattle := true }
        else { s with level := nextLevel }
      { s with stats :=
          { s.stats with highestLevel := max s.stats.highestLevel nextLevel } }
    else s

/-- The two directions accepted by `movePlayer`. -/
inductive Direction
  | left | right
  deriving DecidableEq, Repr

/-- `movePlayer` (store lines 451-464). -/
def movePlayer (s : GameStore) (direction : Direction) (deltaTime : ℚ) : GameStore :=
  let speed := s.config.playerSpeed * (deltaTime / 1000)
  let newX :=
    match direction with
    | .left => max 0 (s.player.position.x - speed)
    | .right => min (s.config.canvasWidth - s.player.size.width)
        (s.player.position.x + speed)
  { s with player :=
      { s.player with position := { s.player.position with x := newX } } }

/-- `playerTakeDamage` (store lines 606-631).  The branch on death reads the
`player` binding captured before the health write, matching the source. -/
def playerTakeDamage (s : GameStore) (damage : ℚ) : GameStore :=
  let player := s.player
  let newHealth := max 0 (player.health - damage)
  let s := { s with player := { s.player with health := newHealth } }
  if newHealth ≤ 0 then
    if player.lives > 1 then
      { s with player :=
          { s.player with
            lives := player.lives - 1
            health := player.maxHealth
            invulnerable := true
            invulnerabilityTime := 3000
            shipLevel := 1
            shipUpgradeTime := 0 } }
    else
      endGame s
  else s

/-- `createEnemy` (store lines 1153-1201).  `Date.now()` and `Math.random()`
come from the injected context; the random spawn x is drawn only when no
explicit x is given, as in the source (`x ?? Math.random() * ...`). -/
def createEnemy (ctx : Ctx) (s : GameStore) (type : EnemyType)
    (x y : Option ℚ) (k : ℕ) : Enemy × ℕ :=
  let level := s.level
  let config := s.config
  let stats := getEnemyStats type level
  let size : Size :=
    if type.isBossFamily then ⟨80, 80⟩
    else if type = .heavy then ⟨45, 45⟩
    else if type = .kamikaze then ⟨30, 30⟩
    else if type = .shielded then ⟨40, 40⟩
    else if type = .swarm then ⟨25, 25⟩
    else ⟨35, 35⟩
  let id := "enemy-" ++ qstr ctx.now ++ "-" ++ qstr (ctx.rand k)
  let (px, k') :=
    match x with
    | some v => (v, k + 1)
    | none => (ctx.rand (k + 1) * (config.canvasWidth - size.width), k + 2)
  let py := match y with | some v => v | none => -50
  ({ id := id, position := ⟨px, py⟩,
     velocity := ⟨0, stats.speed * config.enemySpeedMultiplier * (1 / 60)⟩,
     size := size, health := stats.health, maxHealth := stats.health,
     isActive := true, type := type, points := stats.points,
     shootCooldown :=
       if type = .shooter then 2000 else if type.isBossFamily then 1500 else 5000,
     lastShot := 0, movementPattern := getMovementPattern type,
     attackPattern := getAttackPattern type, level := level,
     armor := stats.armor, shield := stats.shield, maxShield := stats.shield,
     specialAbilityCharge := 100, spawnTime := ctx.now, lastAbilityUse := 0 }, k')

/-- The shield/health damage arithmetic of the player-bullet hit handler
(store lines 925-945): given the bullet damage and the enemy's current
health and shield, returns the `(newHealth, newShield)` pair. -/
def hitOutcome (damage health shield : ℚ) : ℚ × ℚ :=
  let dealt :=
    if 0 < shield then
      if damage ≤ shield then ((0 : ℚ), shield - damage)
      else (damage - shield, (0 : ℚ))
    else (damage, shield)
  (if 0 < dealt.1 then health - dealt.1 else health, dealt.2)

/-- The regenerator death split (store lines 966-983): two reduced-stat
swarm enemies are created at offsets of the dead enemy's position and
appended to the collection.  No cap check is performed. -/
def splitRegenerator (ctx : Ctx) (enemy : Enemy) (s : GameStore) (k : ℕ) :
    GameStore × ℕ :=
  let step (i : ℕ) (acc : GameStore × ℕ) : GameStore × ℕ :=
    let r := createEnemy ctx acc.1 .swarm
      (some (enemy.position.x + (i : ℚ) * 20 - 10))
      (some (enemy.position.y + 20)) acc.2
    let splitEnemy :=
      { r.1 with
        health := ((⌊enemy.health * (3 / 10)⌋ : ℤ) : ℚ),
        maxHealth := ((⌊enemy.health * (3 / 10)⌋ : ℤ) : ℚ),
        points := ((⌊enemy.points * (2 / 10)⌋ : ℤ) : ℚ),
        size := ⟨20, 20⟩ }
    (addEnemy acc.1 splitEnemy, r.2)
  step 1 (step 0 (s, k))

/-- The body run for one colliding (player bullet, enemy) pair inside
`checkCollisions` (store lines 919-1057).  `player0` and `enemy` are the
snapshots captured at the top of `checkCollisions`, while `s` is the live
store, exactly as in the source closure. -/
def resolveBulletHit (ctx : Ctx) (player0 : Player) (bullet : Bullet)
    (enemy : Enemy) (s : GameStore) (k : ℕ) : GameStore × ℕ :=
  let s := if bullet.piercing then s else removeBullet s bullet.id
  let outcome := hitOutcome bullet.damage enemy.health enemy.shield
  let newHealth := outcome.1
  let newShield := outcome.2
  if newHealth ≤ 0 then
    let s := removeEnemy s enemy.id
    let s := { s with player :=
        { s.player with score := player0.score + enemy.points } }
    let s := incrementEnemiesDestroyed s
    let s := checkLevelAdvancement s
    let sk := if enemy.type = .regenerator then splitRegenerator ctx enemy s k
      else (s, k)
    let s := sk.1
    let k := sk.2
    let s := addExplosion s
      { id := "explosion-" ++ qstr ctx.now ++ "-" ++ qstr (ctx.rand k)
        position := ⟨enemy.position.x + enemy.size.width / 2 - 32,
                     enemy.position.y + enemy.size.height / 2 - 32⟩
        size := ⟨64, 64⟩, currentFrame := 0, totalFrames := 7,
        frameTime := 80, lifetime := 0, isActive := true }
    let k := k + 1
    let powerUpChance : ℚ := if enemy.type = .boss then 5 / 10 else 2 / 10
    let sk :=
      if ctx.rand k < powerUpChance then
        let powerUpTypes : List PowerUpType := [.health, .weapon, .shield, .ship]
        let powerUpType := powerUpTypes.getD
          (⌊ctx.rand (k + 1) * (powerUpTypes.length : ℚ)⌋).toNat .health
        (addPowerUp s
          { id := "powerup-" ++ qstr ctx.now ++ "-" ++ qstr (ctx.rand (k + 2))
            position := ⟨enemy.position.x + enemy.size.width / 2 - 15,
                         enemy.position.y + enemy.size.height / 2 - 15⟩
            velocity := ⟨0, 50⟩, size := ⟨30, 30⟩, health := 1, maxHealth := 1,
            isActive := true, type := powerUpType, duration := 10000,
            rarity := .common }, k + 3)
      else (s, k + 1)
    let s := sk.1
    let k := sk.2
    let mkDebris (ki : ℕ) : Particle :=
      { id := "particle-" ++ qstr ctx.now ++ "-" ++ qstr (ctx.rand ki)
        position := ⟨enemy.position.x + enemy.size.width / 2,
                     enemy.position.y + enemy.size.height / 2⟩
        velocity := ⟨(ctx.rand (ki + 1) - 5 / 10) * 150,
                     (ctx.rand (ki + 2) - 5 / 10) * 150⟩
        size := ⟨2, 2⟩, health := 1, maxHealth := 1, isActive := true,
        lifetime := 0, maxLifetime := 800, color := "#ffaa00", alpha := 1 }
    let s := addParticle s (mkDebris k)
    let s := addParticle s (mkDebris (k + 3))
    let s := addParticle s (mkDebris (k + 6))
    let s := addParticle s (mkDebris (k + 9))
    let s := addParticle s (mkDebris (k + 12))
    (s, k + 15)
  else
    ({ s with enemies := s.enemies.map (fun e =>
        if e.id = enemy.id then { e with health := newHealth, shield := newShield }
        else e) }, k)

/-- `collectPowerUp` (store lines 837-871): four collection particles (two
random draws each for velocity), then removal and the collected-count stat. -/
def collectPowerUp (ctx : Ctx) (s : GameStore) (id : String) (k : ℕ) :
    GameStore × ℕ :=
  match s.powerUps.find? (fun p => decide (p.id = id)) with
  | none => (s, k)
  | some powerUp =>
    let mkCollect (i : ℕ) (ki : ℕ) : Particle :=
      { id := "collect-particle-" ++ qstr ctx.now ++ "-" ++ toString i
        position := ⟨powerUp.position.x + powerUp.size.width / 2,
                     powerUp.position.y + powerUp.size.height / 2⟩
        velocity := ⟨(ctx.rand ki - 5 / 10) * 100,
                     -(ctx.rand (ki + 1)) * 100 - 50⟩
        size := ⟨3, 3⟩, health := 1, maxHealth := 1, isActive := true,
        lifetime := 0, maxLifetime := 500,
        color :=
          if powerUp.type = .health then "#00ff00"
          else if powerUp.type = .weapon then "#0000ff"
          else if powerUp.type = .ship then "#ff00ff" else "#ffff00",
        alpha := 1 }
    let s := addParticle s (mkCollect 0 k)
    let s := addParticle s (mkCollect 1 (k + 2))
    let s := addParticle s (mkCollect 2 (k + 4))
    let s := addParticle s (mkCollect 3 (k + 6))
    let s := removePowerUp s id
    (incrementPowerUpsCollected s, k + 8)

/-- The body run for one colliding (power-up, player) pair inside
`checkCollisions` (store lines 1079-1148); `player0` is the snapshot captured
at the top of `checkCollisions`. -/
def applyPowerUpHit (ctx : Ctx) (player0 : Player) (powerUp : PowerUp)
    (s : GameStore) (k : ℕ) : GameStore × ℕ :=
  let sk := collectPowerUp ctx s powerUp.id k
  let s := sk.1
  let k := sk.2
  match powerUp.type with
  | .health =>
    ({ s with player :=
        { s.player with health := min player0.maxHealth (player0.health + 25) } }, k)
  | .weapon =>
    ({ s with player :=
        { s.player with weaponLevel := min 10 (player0.weaponLevel + 1) } }, k)
  | .shield =>
    ({ s with player :=
        { s.player with invulnerable := true, invulnerabilityTime := 5000 } }, k)
  | .ship =>
    let availableLevels : List ℕ := [2, 3, 4]
    let randomShipLevel := availableLevels.getD
      (⌊ctx.rand k * (availableLevels.length : ℚ)⌋).toNat 2
    let upgradeDuration := 7000 + ctx.rand (k + 1) * 2000
    let s := { s with player :=
        { s.player with
          shipLevel := randomShipLevel
          shipUpgradeTime := upgradeDuration } }
    let mkUpgrade (i : ℕ) (ki : ℕ) : Particle :=
      { id := "ship-upgrade-particle-" ++ qstr ctx.now ++ "-" ++ toString i
        position := ⟨player0.position.x + player0.size.width / 2,
                     player0.position.y + player0.size.height / 2⟩
        velocity := ⟨(ctx.rand ki - 5 / 10) * 150,
                     -(ctx.rand (ki + 1)) * 150 - 100⟩
        size := ⟨4, 4⟩, health := 1, maxHealth := 1, isActive := true,
        lifetime := 0, maxLifetime := 1000, color := "#ff00ff", alpha := 1 }
    let s := addParticle s (mkUpgrade 0 (k + 2))
    let s := addParticle s (mkUpgrade 1 (k + 4))
    let s := addParticle s (mkUpgrade 2 (k + 6))
    let s := addParticle s (mkUpgrade 3 (k + 8))
    let s := addParticle s (mkUpgrade 4 (k + 10))
    let s := addParticle s (mkUpgrade 5 (k + 12))
    let s := addParticle s (mkUpgrade 6 (k + 14))
    let s := addParticle s (mkUpgrade 7 (k + 16))
    (s, k + 18)
  | _ => (s, k)

/-- `checkCollisions` (store lines 913-1150).  The four passes iterate over
the entity lists snapshotted at the top of the function while the inner
actions mutate the live store, exactly as the source's `forEach` closures do. -/
def checkCollisions (ctx : Ctx) (s0 : GameStore) (k : ℕ) : GameStore × ℕ :=
  let player := s0.player
  let enemies := s0.enemies
  let bullets := s0.bullets
  let powerUps := s0.powerUps
  let acc := (bullets.filter (fun b => decide (b.owner = BulletOwner.player))).foldl
    (fun acc bullet =>
      enemies.foldl (fun acc enemy =>
        if isColliding bullet.rect enemy.rect then
          resolveBulletHit ctx player bullet enemy acc.1 acc.2
        else acc) acc)
    (s0, k)
  let acc := (bullets.filter (fun b => decide (b.owner = BulletOwner.enemy))).foldl
    (fun acc bullet =>
      if isColliding bullet.rect player.rect && !player.invulnerable then
        (playerTakeDamage (removeBullet acc.1 bullet.id) bullet.damage, acc.2)
      else acc) acc
  let acc := enemies.foldl
    (fun acc enemy =>
      if isColliding enemy.rect player.rect && !player.invulnerable then
        (playerTakeDamage (removeEnemy acc.1 enemy.id) 50, acc.2)
      else acc) acc
  powerUps.foldl
    (fun acc powerUp =>
      if isColliding powerUp.rect player.rect then
        applyPowerUpHit ctx player powerUp acc.1 acc.2
      else acc) acc

/-- `spawnEnemies` (store lines 1203-1232). -/
def spawnEnemies (ctx : Ctx) (s : GameStore) (k : ℕ) : GameStore × ℕ :=
  let enemies := s.enemies
  let level := s.level
  let config := s.config
  let now := ctx.now
  if s.isBossBattle then
    if (enemies.filter (fun e => decide (e.type = EnemyType.boss))).length = 0 then
      let r := createEnemy ctx s .boss (some (config.canvasWidth / 2 - 40))
        (some (-80)) k
      (addEnemy s r.1, r.2)
    else (s, k)
  else
    let maxEnemies := getMaxEnemiesForLevel level
    if (enemies.length : ℤ) ≥ maxEnemies then (s, k)
    else
      let spawnRate := getSpawnRate level
      if s.lastSpawnTime = 0 ∨ now - s.lastSpawnTime > spawnRate then
        let tk := getAvailableEnemyTypes ctx level k
        let availableTypes := tk.1
        let k := tk.2
        let enemyType := availableTypes.getD
          (⌊ctx.rand k * (availableTypes.length : ℚ)⌋).toNat .basic
        let r := createEnemy ctx s enemyType none none (k + 1)
        ({ addEnemy s r.1 with lastSpawnTime := now }, r.2)
      else (s, k)

/-- `enemy.id.charCodeAt(0)` (entity ids are nonempty strings). -/
def charCodeAt0 (s : String) : ℚ :=
  match s.data with
  | [] => 0
  | c :: _ => (c.toNat : ℚ)

/-- Advance an enemy by one tick with the given new velocity (the shared
tail of the `updateEnemies` map callback, store lines 768-776). -/
def advanceEnemy (enemy : Enemy) (newVelocity : Vec2) : Enemy :=
  { enemy with
    velocity := newVelocity
    position := ⟨enemy.position.x + newVelocity.x,
                 enemy.position.y + newVelocity.y⟩ }

/-- The `updateEnemies` map callback (store lines 648-777): per-type movement
behaviour.  `speed` is `config.enemies.speed * (deltaTime / 1000)` computed
once outside the map, as in the source. -/
def updateEnemy (ctx : Ctx) (deltaTime speed : ℚ) (player : Player)
    (enemy : Enemy) : Enemy :=
  match enemy.type with
  | .kamikaze =>
    let damageFrac := 1 - enemy.health / enemy.maxHealth
    let speedMultiplier := 1 + damageFrac * 2
    let dx := player.position.x - enemy.position.x
    let dy := player.position.y - enemy.position.y
    let dist := ctx.msqrt (dx * dx + dy * dy)
    let newVelocity :=
      if dist > 0 then
        Vec2.mk (dx / dist * speed * speedMultiplier)
          (dy / dist * speed * speedMultiplier)
      else enemy.velocity
    advanceEnemy enemy newVelocity
  | .shielded =>
    let newShield :=
      if enemy.shield < enemy.maxShield then
        min enemy.maxShield (enemy.shield + (5 / 10) * (deltaTime / 1000))
      else enemy.shield
    let time := ctx.now * (1 / 1000)
    let newVelocity : Vec2 :=
      ⟨ctx.msin (time + charCodeAt0 enemy.id) * speed * (5 / 10), speed⟩
    { enemy with
      velocity := newVelocity
      shield := newShield
      position := ⟨enemy.position.x + newVelocity.x,
                   enemy.position.y + newVelocity.y⟩ }
  | .regenerator =>
    let newHealth :=
      if enemy.health < enemy.maxHealth then
        min enemy.maxHealth (enemy.health + 5 * (deltaTime / 1000))
      else enemy.health
    let time := ctx.now * (2 / 1000)
    let newVelocity : Vec2 :=
      ⟨ctx.msin (time + charCodeAt0 enemy.id) * speed * (8 / 10),
       speed * (7 / 10)⟩
    { enemy with
      velocity := newVelocity
      health := newHealth
      position := ⟨enemy.position.x + newVelocity.x,
                   enemy.position.y + newVelocity.y⟩ }
  | .boss =>
    let time := ctx.now * (1 / 1000)
    let phase := (⌊time / 5⌋).emod 4
    let newVelocity : Vec2 :=
      if phase = 0 then ⟨ctx.mcos time * speed * (5 / 10), speed * (3 / 10)⟩
      else if phase = 1 then
        ⟨ctx.msin (time * 2) * speed * (8 / 10), speed * (2 / 10)⟩
      else if phase = 2 then
        let dx := player.position.x - enemy.position.x
        let dy := player.position.y - enemy.position.y
        let dist := ctx.msqrt (dx * dx + dy * dy)
        if dist > 0 then
          ⟨dx / dist * speed * (4 / 10), dy / dist * speed * (4 / 10)⟩
        else enemy.velocity
      else ⟨ctx.msin time * speed * (3 / 10), -speed * (2 / 10)⟩
    advanceEnemy enemy newVelocity
  | _ => advanceEnemy enemy ⟨0, speed⟩

/-- `updateEnemies` (store lines 642-780): map the per-type behaviour, then
drop enemies past the bottom margin. -/
def updateEnemies (ctx : Ctx) (deltaTime : ℚ) (s : GameStore) : GameStore :=
  let speed := s.config.enemiesSpeed * (deltaTime / 1000)
  let newEnemies :=
    (s.enemies.map (updateEnemy ctx deltaTime speed s.player)).filter
      (fun e => decide (e.position.y < s.config.canvasHeight + 50))
  { s with enemies := newEnemies }

/-- `updateBullets` (store lines 790-809). -/
def updateBullets (deltaTime : ℚ) (s : GameStore) : GameStore :=
  let newBullets :=
    (s.bullets.map (fun b =>
      { b with position := ⟨b.position.x + b.velocity.x * (deltaTime / 1000),
                            b.position.y + b.velocity.y * (deltaTime / 1000)⟩ })).filter
      (fun b =>
        decide (b.position.y > -50) && decide (b.position.y < s.config.canvasHeight + 50) &&
        decide (b.position.x > -50) && decide (b.position.x < s.config.canvasWidth + 50))
  { s with bullets := newBullets }

/-- `updatePowerUps` (store lines 819-835). -/
def updatePowerUps (deltaTime : ℚ) (s : GameStore) : GameStore :=
  let newPowerUps :=
    (s.powerUps.map (fun p =>
      { p with
        position := ⟨p.position.x + p.velocity.x * deltaTime / 1000,
                     p.position.y + p.velocity.y * deltaTime / 1000⟩
        duration := p.duration - deltaTime })).filter
      (fun p =>
        decide (p.position.y < s.config.canvasHeight + 50) && decide (p.duration > 0))
  { s with powerUps := newPowerUps }

/-- `updateParticles` (store lines 877-887); as in the source, the new alpha
is computed from the lifetime read before the update. -/
def updateParticles (deltaTime : ℚ) (s : GameStore) : GameStore :=
  let newParticles :=
    (s.particles.map (fun p =>
      { p with
        lifetime := p.lifetime + deltaTime
        alpha := max 0 (1 - p.lifetime / p.maxLifetime) })).filter
      (fun p => decide (p.lifetime < p.maxLifetime))
  { s with particles := newParticles }

/-- `updateExplosions` (store lines 893-910). -/
def updateExplosions (deltaTime : ℚ) (s : GameStore) : GameStore :=
  let newExplosions :=
    (s.explosions.map (fun e =>
      let newLifetime := e.lifetime + deltaTime
      let frameProgress := newLifetime / e.frameTime
      { e with
        lifetime := newLifetime
        currentFrame := (⌊frameProgress⌋).emod e.totalFrames
        isActive := decide (frameProgress < (e.totalFrames : ℚ)) })).filter
      (fun e => e.isActive)
  { s with explosions := newExplosions }

/-- `playerShoot` (store lines 466-604): guards on the player-bullet cap and
the last-shot cooldown, then a firing pattern per ship level; finally the
last-shot timestamp (`lastFrameTime`) is set to `Date.now()`. -/
def playerShoot (ctx : Ctx) (s : GameStore) (k : ℕ) : GameStore × ℕ :=
  let player := s.player
  let bullets := s.bullets
  let config := s.config
  let now := ctx.now
  if (bullets.filter (fun b => decide (b.owner = BulletOwner.player))).length ≥
      config.bulletsMaxOnScreen then (s, k)
  else
    let cooldown : ℚ := if player.shipLevel ≥ 3 then 100 else 200
    if now - s.lastFrameTime < cooldown then (s, k)
    else
      let baseDamage : ℚ := 25 * (player.weaponLevel : ℚ)
      let basicShot (s : GameStore) (k : ℕ) : GameStore × ℕ :=
        let bullet : Bullet :=
          { id := "bullet-" ++ qstr now ++ "-" ++ qstr (ctx.rand k)
            position := ⟨player.position.x + player.size.width / 2 - 2,
                         player.position.y⟩
            velocity := ⟨0, -config.bulletsSpeed⟩
            size := ⟨4, 8⟩, health := 1, maxHealth := 1, isActive := true
            damage := baseDamage, owner := .player, bulletType := .basic
            piercing := false, explosive := false }
        (incrementBulletsFired (addBullet s bullet) 1, k + 1)
      let sk :=
        match player.shipLevel with
        | 2 =>
          let spreadAngle : ℚ := 3 / 10
          let mkSpread (i : ℕ) (ki : ℕ) : Bullet :=
            let angle := ((i : ℚ) - 1) * spreadAngle
            { id := "bullet-" ++ qstr now ++ "-" ++ qstr (ctx.rand ki) ++
                "-" ++ toString i
              position := ⟨player.position.x + player.size.width / 2 - 2,
                           player.position.y⟩
              velocity := ⟨ctx.msin angle * config.bulletsSpeed * (5 / 10),
                           -(ctx.mcos angle) * config.bulletsSpeed⟩
              size := ⟨3, 6⟩, health := 1, maxHealth := 1, isActive := true
              damage := baseDamage * (8 / 10), owner := .player
              bulletType := .multiShot, piercing := false, explosive := false }
          let s := addBullet s (mkSpread 0 k)
          let s := addBullet s (mkSpread 1 (k + 1))
          let s := addBullet s (mkSpread 2 (k + 2))
          (incrementBulletsFired s 3, k + 3)
        | 3 =>
          let bullet : Bullet :=
            { id := "laser-" ++ qstr now ++ "-" ++ qstr (ctx.rand k)
              position := ⟨player.position.x + player.size.width / 2 - 1,
                           player.position.y⟩
              velocity := ⟨0, -config.bulletsSpeed * (15 / 10)⟩
              size := ⟨2, 30⟩, health := 1, maxHealth := 1, isActive := true
              damage := baseDamage * (15 / 10), owner := .player
              bulletType := .laser, piercing := true, explosive := false }
          (incrementBulletsFired (addBullet s bullet) 1, k + 1)
        | 4 =>
          let laserOffset : ℚ := 8
          let mkDual (i : ℕ) (ki : ℕ) : Bullet :=
            { id := "dual-laser-" ++ qstr now ++ "-" ++ qstr (ctx.rand ki) ++
                "-" ++ toString i
              position := ⟨player.position.x + player.size.width / 2 - 1 +
                  (if i = 0 then -laserOffset else laserOffset),
                player.position.y⟩
              velocity := ⟨0, -config.bulletsSpeed * (18 / 10)⟩
              size := ⟨3, 35⟩, health := 1, maxHealth := 1, isActive := true
              damage := baseDamage * (18 / 10), owner := .player
              bulletType := .laser, piercing := true, explosive := false }
          let s := addBullet s (mkDual 0 k)
          let s := addBullet s (mkDual 1 (k + 1))
          (incrementBulletsFired s 2, k + 2)
        | _ => basicShot s k
      ({ sk.1 with lastFrameTime := now }, sk.2)

/-- `updateGameLogic` (store lines 1234-1272): the `isRunning`/`isPaused`
guard, the two player countdown timers (both reading the player snapshot
taken at the top, as the source does), then the entity updates, collision
resolution and spawning. -/
def updateGameLogic (ctx : Ctx) (deltaTime : ℚ) (s : GameStore) (k : ℕ) :
    GameStore × ℕ :=
  if !s.isRunning || s.isPaused then (s, k)
  else
    let player := s.player
    let s :=
      if player.invulnerabilityTime > 0 then
        let newInvulnerabilityTime := max 0 (player.invulnerabilityTime - deltaTime)
        if newInvulnerabilityTime = 0 then
          { s with player :=
              { s.player with invulnerable := false, invulnerabilityTime := 0 } }
        else
          { s with player :=
              { s.player with invulnerabilityTime := newInvulnerabilityTime } }
      else s
    let s :=
      if player.shipUpgradeTime > 0 then
        let newShipUpgradeTime := max 0 (player.shipUpgradeTime - deltaTime)
        if newShipUpgradeTime = 0 then
          { s with player :=
              { s.player with shipLevel := 1, shipUpgradeTime := 0 } }
        else
          { s with player :=
              { s.player with shipUpgradeTime := newShipUpgradeTime } }
      else s
    let s := updateEnemies ctx deltaTime s
    let s := updateBullets deltaTime s
    let s := updatePowerUps deltaTime s
    let s := updateParticles deltaTime s
    let s := updateExplosions deltaTime s
    let sk := checkCollisions ctx s k
    spawnEnemies ctx sk.1 sk.2

/-! ## Characterisation of the level-math loops -/

/-- Sum of the first `m` geometric score requirements starting from `req`:
`req + req·1.5 + ... + req·1.5^(m-1)`. -/
def reqSum (req : ℚ) : ℕ → ℚ
  | 0 => 0
  | m + 1 => reqSum req m + req * LATE_POINTS_MULTIPLIER ^ m

theorem reqSum_succ_shift (req : ℚ) (m : ℕ) :
    reqSum req (m + 1) = req + reqSum (req * LATE_POINTS_MULTIPLIER) m := by
  induction m with
  | zero => simp [reqSum]
  | succ n ih =>
    have h1 : reqSum req (n + 1 + 1) =
        reqSum req (n + 1) + req * LATE_POINTS_MULTIPLIER ^ (n + 1) := rfl
    have h2 : reqSum (req * LATE_POINTS_MULTIPLIER) (n + 1) =
        reqSum (req * LATE_POINTS_MULTIPLIER) n +
          (req * LATE_POINTS_MULTIPLIER) * LATE_POINTS_MULTIPLIER ^ n := rfl
    rw [h1, ih, h2]
    ring

theorem reqSum_nonneg {req : ℚ} (hreq : 0 ≤ req) (m : ℕ) : 0 ≤ reqSum req m := by
  induction m with
  | zero => simp [reqSum]
  | succ n ih =>
    have hL : (0 : ℚ) ≤ LATE_POINTS_MULTIPLIER := by norm_num [LATE_POINTS_MULTIPLIER]
    have hpow : (0 : ℚ) ≤ LATE_POINTS_MULTIPLIER ^ n := pow_nonneg hL n
    have : (0 : ℚ) ≤ req * LATE_POINTS_MULTIPLIER ^ n := mul_nonneg hreq hpow
    calc (0 : ℚ) ≤ reqSum req n + req * LATE_POINTS_MULTIPLIER ^ n := by linarith
      _ = reqSum req (n + 1) := rfl

theorem reqSum_lt_succ {req : ℚ} (hreq : 0 < req) (m : ℕ) :
    reqSum req m < reqSum req (m + 1) := by
  have hpow : (0 : ℚ) < LATE_POINTS_MULTIPLIER ^ m := by
    have : (0 : ℚ) < LATE_POINTS_MULTIPLIER := by norm_num [LATE_POINTS_MULTIPLIER]
    positivity
  have : (0 : ℚ) < req * LATE_POINTS_MULTIPLIER ^ m := mul_pos hreq hpow
  calc reqSum req m < reqSum req m + req * LATE_POINTS_MULTIPLIER ^ m := by linarith
    _ = reqSum req (m + 1) := rfl

theorem mul_le_reqSum {req : ℚ} (hreq : 0 ≤ req) (m : ℕ) :
    req * m ≤ reqSum req m := by
  induction m with
  | zero => simp [reqSum]
  | succ n ih =>
    have hL : (1 : ℚ) ≤ LATE_POINTS_MULTIPLIER := by norm_num [LATE_POINTS_MULTIPLIER]
    have hpow : (1 : ℚ) ≤ LATE_POINTS_MULTIPLIER ^ n := one_le_pow₀ hL
    have hterm : req ≤ req * LATE_POINTS_MULTIPLIER ^ n := by
      nlinarith
    have : reqSum req (n + 1) = reqSum req n + req * LATE_POINTS_MULTIPLIER ^ n := rfl
    rw [this]
    push_cast
    nlinarith

/-- The `while` loop of `calculateLevelFromScore` takes exactly `i` steps and
returns `currentLevel + i` when the remaining score sits between the `i`-th
and `(i+1)`-th cumulative requirement, provided the fuel covers `i` steps. -/
theorem calcLoop_spec :
    ∀ (i fuel : ℕ) (lvl : ℤ) (req used rem : ℚ), 0 < req → i ≤ fuel →
      used + reqSum req i ≤ rem → rem < used + reqSum req (i + 1) →
      calcLoop fuel lvl req used rem = lvl + i := by
  intro i
  induction i with
  | zero =>
    intro fuel lvl req used rem hreq _ _ hup
    have hone : reqSum req 1 = req := by simp [reqSum]
    rw [hone] at hup
    cases fuel with
    | zero => simp [calcLoop]
    | succ f =>
      have hcond : ¬ used + req ≤ rem := by linarith
      simp [calcLoop, hcond]
  | succ n ih =>
    intro fuel lvl req used rem hreq hfuel hlo hup
    have hshift := reqSum_succ_shift req n
    have hshift2 := reqSum_succ_shift req (n + 1)
    have hnn : 0 ≤ reqSum (req * LATE_POINTS_MULTIPLIER) n := by
      apply reqSum_nonneg
      have : (0 : ℚ) < LATE_POINTS_MULTIPLIER := by norm_num [LATE_POINTS_MULTIPLIER]
      nlinarith
    have hcond : used + req ≤ rem := by
      rw [hshift] at hlo
      linarith
    obtain ⟨f, rfl⟩ : ∃ f, fuel = f + 1 := by
      cases fuel with
      | zero => omega
      | succ f => exact ⟨f, rfl⟩
    have hstep : calcLoop (f + 1) lvl req used rem =
        calcLoop f (lvl + 1) (req * LATE_POINTS_MULTIPLIER) (used + req) rem := by
      simp [calcLoop, hcond]
    rw [hstep]
    have hreq' : 0 < req * LATE_POINTS_MULTIPLIER := by
      have : (0 : ℚ) < LATE_POINTS_MULTIPLIER := by norm_num [LATE_POINTS_MULTIPLIER]
      positivity
    have hlo' : (used + req) + reqSum (req * LATE_POINTS_MULTIPLIER) n ≤ rem := by
      rw [hshift] at hlo
      linarith
    have hup' : rem < (used + req) + reqSum (req * LATE_POINTS_MULTIPLIER) (n + 1) := by
      rw [hshift2] at hup
      linarith
    have := ih f (lvl + 1) (req * LATE_POINTS_MULTIPLIER) (used + req) rem hreq'
      (by omega) hlo' hup'
    rw [this]
    push_cast
    ring

theorem nextLevelLoop_eq :
    ∀ (m : ℕ) (total req : ℚ), nextLevelLoop m total req = total + reqSum req m := by
  intro m
  induction m with
  | zero => intro total req; simp [nextLevelLoop, reqSum]
  | succ n ih =>
    intro total req
    have h1 : nextLevelLoop (n + 1) total req =
        nextLevelLoop n (total + req) (req * LATE_POINTS_MULTIPLIER) := rfl
    rw [h1, ih, reqSum_succ_shift]
    ring

/-- Closed form of `getScoreForNextLevel` from level 5 on. -/
theorem getScoreForNextLevel_late {n : ℤ} (hn : 5 ≤ n) :
    getScoreForNextLevel n = 5000 + reqSum 1500 (n - 5).toNat := by
  rcases eq_or_lt_of_le hn with h5 | h6
  · subst h5
    norm_num [getScoreForNextLevel, reqSum, EARLY_POINTS_PER_LEVEL]
  · have hnot : ¬ n ≤ 5 := by omega
    have h1500 : EARLY_POINTS_PER_LEVEL * LATE_POINTS_MULTIPLIER = 1500 := by
      norm_num [EARLY_POINTS_PER_LEVEL, LATE_POINTS_MULTIPLIER]
    have h5000 : EARLY_POINTS_PER_LEVEL * 5 = 5000 := by
      norm_num [EARLY_POINTS_PER_LEVEL]
    simp only [getScoreForNextLevel, hnot, if_false, nextLevelLoop_eq, h1500, h5000]

/-- The late branch of `calculateLevelFromScore`, characterised: a score
`5000 + rem` with `rem` between the `i`-th and `(i+1)`-th cumulative late
requirement yields level `5 + i`. -/
theorem calc_late {rem : ℚ} {i : ℕ} (hlo : reqSum 1500 i ≤ rem)
    (hup : rem < reqSum 1500 (i + 1)) :
    calculateLevelFromScore (5000 + rem) = 5 + (i : ℤ) := by
  have hrem0 : 0 ≤ rem := le_trans (reqSum_nonneg (by norm_num) i) hlo
  have hnot : ¬ (5000 + rem < EARLY_POINTS_PER_LEVEL * 5) := by
    norm_num [EARLY_POINTS_PER_LEVEL]
    linarith
  have hsimp : (5000 : ℚ) + rem - EARLY_POINTS_PER_LEVEL * 5 = rem := by
    norm_num [EARLY_POINTS_PER_LEVEL]
  have h1500 : EARLY_POINTS_PER_LEVEL * LATE_POINTS_MULTIPLIER = 1500 := by
    norm_num [EARLY_POINTS_PER_LEVEL, LATE_POINTS_MULTIPLIER]
  simp only [calculateLevelFromScore, hnot, if_false, hsimp, h1500]
  apply calcLoop_spec i _ 5 1500 0 rem (by norm_num)
  · have hmul : (1500 : ℚ) * i ≤ rem := le_trans (mul_le_reqSum (by norm_num) i) hlo
    have hflo : (i : ℤ) ≤ ⌊rem / 1500⌋ := by
      rw [Int.le_floor]
      rw [le_div_iff₀ (by norm_num : (0:ℚ) < 1500)]
      push_cast
      linarith
    have : i ≤ ⌊rem / 1500⌋.toNat := by omega
    omega
  · simpa using hlo
  · simpa using hup

/-! ## Concrete sample data for witnesses and counterexamples -/

/-- An injected environment with simple deterministic stand-ins: the random
stream is constantly 1, `msin` is the identity (odd, zero at zero) and
`mcos` is constantly 1 (even, one at zero). -/
def sampleCtx : Ctx :=
  { now := 1000, rand := fun _ => 1, msin := fun x => x,
    mcos := fun _ => 1, msqrt := fun _ => 0 }

/-- The `DEFAULT_CONFIG` of the store (lines 245-272). -/
def sampleConfig : GameConfig :=
  { canvasWidth := 800, canvasHeight := 600, playerSpeed := 300,
    playerSize := ⟨40, 40⟩, maxLives := 3, invulnerabilityDuration := 2000,
    enemiesSpawnRate := 2000, enemiesSpeed := 100, enemiesMaxOnScreen := 25,
    bulletsSpeed := 400, bulletsMaxOnScreen := 100, difficultyLevel := 1,
    enemySpeedMultiplier := 1, enemySpawnRateMultiplier := 1,
    enemyHealthMultiplier := 1, scoreMultiplier := 1 }

/-- The `DEFAULT_SETTINGS` of the store (lines 274-295). -/
def sampleSettings : GameSettings :=
  { masterVolume := 7 / 10, musicVolume := 1 / 2, sfxVolume := 8 / 10,
    muted := false, graphicsParticles := true, screenShake := true,
    vsync := true, controlLeft := "ArrowLeft", controlRight := "ArrowRight",
    controlUp := "ArrowUp", controlDown := "ArrowDown", controlShoot := " ",
    controlPause := "Escape", difficulty := .normal }

/-- The `initialStats` record (lines 323-332). -/
def sampleStats : GameStats := ⟨0, 0, 0, 0, 0, 0, 0, 0⟩

/-- A freshly started game: the store state right after `startGame`. -/
def baseStore : GameStore :=
  { gameState := .playing, isRunning := true, isPaused := false,
    gameTime := 0, level := 1, lastLevelCheck := 0, isBossBattle := false,
    player := createInitialPlayer, enemies := [], bullets := [],
    powerUps := [], particles := [], explosions := [],
    inputState := ⟨false, false, false, false, false, false⟩,
    config := sampleConfig, settings := sampleSettings, highScores := [],
    stats := sampleStats, lastFrameTime := 0, deltaTime := 0,
    lastSpawnTime := 0 }

/-- A level-10 boss enemy as `createEnemy` shapes it (used as a concrete
inhabitant of the enemy collection). -/
def sampleBoss : Enemy :=
  { id := "boss1", position := ⟨380, 100⟩, velocity := ⟨0, 0⟩,
    size := ⟨80, 80⟩, health := 500, maxHealth := 500, isActive := true,
    type := .boss, points := 1000, shootCooldown := 1500, lastShot := 0,
    movementPattern := .circle, attackPattern := .laser, level := 10,
    armor := 5, shield := 200, maxShield := 200, specialAbilityCharge := 100,
    spawnTime := 0, lastAbilityUse := 0 }

/-! ## Claim theorems -/

/-- C1: while `isBossBattle` is true, `checkLevelAdvancement` never
increments the level while any enemy with type `boss` remains in the
collection (the store is left untouched); once no boss-type enemy remains it
increments the level by exactly 1 and clears `isBossBattle`, so the level
advances exactly once per defeated boss. -/
theorem C1_boss_gating (s : GameStore) (h : s.isBossBattle = true) :
    ((∃ e ∈ s.enemies, e.type = EnemyType.boss) → checkLevelAdvancement s = s) ∧
    ((∀ e ∈ s.enemies, e.type ≠ EnemyType.boss) →
      (checkLevelAdvancement s).level = s.level + 1 ∧
      (checkLevelAdvancement s).isBossBattle = false) := by
  constructor
  · rintro ⟨e, he, hb⟩
    have hne : (s.enemies.filter (fun e => decide (e.type = EnemyType.boss))).length ≠ 0 := by
      intro hlen
      rw [List.length_eq_zero, List.filter_eq_nil_iff] at hlen
      have := hlen e he
      simp at this
      exact this hb
    simp [checkLevelAdvancement, h, hne]
  · intro hall
    have hnil : (s.enemies.filter (fun e => decide (e.type = EnemyType.boss))).length = 0 := by
      rw [List.length_eq_zero, List.filter_eq_nil_iff]
      intro a ha
      simpa using hall a ha
    simp [checkLevelAdvancement, h, hnil]

/-- Witness for C1 at a concrete boss-battle store: with the boss still
present the store is unchanged. -/
theorem C1_boss_gating_witness :
    checkLevelAdvancement
        { baseStore with isBossBattle := true, enemies := [sampleBoss] } =
      { baseStore with isBossBattle := true, enemies := [sampleBoss] } :=
  (C1_boss_gating _ rfl).1 ⟨sampleBoss, by simp, rfl⟩

/-- C3: when `playerTakeDamage` reduces health to 0, with more than one life
left it costs exactly one life, restores full health, grants 3000 ms of
invulnerability and resets the ship to level 1; with exactly one life left it
sets the game-over state and stops the simulation. -/
theorem C3_player_death (s : GameStore) (d : ℚ) (hd : s.player.health ≤ d) :
    (1 < s.player.lives →
      (playerTakeDamage s d).player.lives = s.player.lives - 1 ∧
      (playerTakeDamage s d).player.health = s.player.maxHealth ∧
      (playerTakeDamage s d).player.invulnerable = true ∧
      (playerTakeDamage s d).player.invulnerabilityTime = 3000 ∧
      (playerTakeDamage s d).player.shipLevel = 1) ∧
    (s.player.lives = 1 →
      (playerTakeDamage s d).gameState = GameState.gameOver ∧
      (playerTakeDamage s d).isRunning = false) := by
  have hnew : max 0 (s.player.health - d) = 0 := max_eq_left (by linarith)
  constructor
  · intro hl
    simp [playerTakeDamage, hnew, hl]
  · intro hl
    have hnl : ¬ (1 : ℕ) < s.player.lives := by omega
    simp [playerTakeDamage, endGame, hnew, hl, hnl]

/-- Witness for C3: a fresh player (3 lives, 100 health) hit for 150 damage
loses exactly one life and is restored to full health. -/
theorem C3_player_death_witness :
    (playerTakeDamage baseStore 150).player.lives = baseStore.player.lives - 1 ∧
    (playerTakeDamage baseStore 150).player.health = baseStore.player.maxHealth :=
  ⟨((C3_player_death baseStore 150 (by with_unfolding_all decide)).1
      (by with_unfolding_all decide)).1,
   ((C3_player_death baseStore 150 (by with_unfolding_all decide)).1
      (by with_unfolding_all decide)).2.1⟩

/-- C5: score 0 is level 1, score 1000 is level 2, cumulative score 5000 is
level 5; every score in `[5000, 6500)` still maps to level 5 and 6500 is the
first score of level 6, so level 6 costs 1500 points beyond 5000. -/
theorem C5_level_scenarios :
    calculateLevelFromScore 0 = 1 ∧
    calculateLevelFromScore 1000 = 2 ∧
    calculateLevelFromScore 5000 = 5 ∧
    (∀ s : ℚ, 5000 ≤ s → s < 6500 → calculateLevelFromScore s = 5) ∧
    calculateLevelFromScore 6500 = 6 := by
  refine ⟨by with_unfolding_all decide, by with_unfolding_all decide,
    by with_unfolding_all decide, ?_, by with_unfolding_all decide⟩
  intro s h1 h2
  have hs : s = 5000 + (s - 5000) := by ring
  rw [hs]
  have h0 : reqSum 1500 0 ≤ s - 5000 := by
    simp [reqSum]
    linarith
  have h1' : s - 5000 < reqSum 1500 1 := by
    have : reqSum 1500 1 = 1500 := by
      norm_num [reqSum, LATE_POINTS_MULTIPLIER]
    rw [this]
    linarith
  simpa using calc_late h0 h1'

/-- Witness for C5 at the interior score 6000, which still maps to level 5. -/
theorem C5_level_scenarios_witness : calculateLevelFromScore 6000 = 5 :=
  C5_level_scenarios.2.2.2.1 6000 (by norm_num) (by norm_num)

/-- C9: with the simulation stopped or paused, `updateGameLogic` is the
identity on the whole store (and leaves the rand cursor alone); and
`pauseGame` rewrites only `gameState` and `isPaused`, preserving the player
and every entity collection. -/
theorem C9_pause_frame_effect :
    (∀ (ctx : Ctx) (deltaTime : ℚ) (s : GameStore) (k : ℕ),
      s.isRunning = false ∨ s.isPaused = true →
      updateGameLogic ctx deltaTime s k = (s, k)) ∧
    (∀ s : GameStore, pauseGame s =
      { s with gameState := GameState.paused, isPaused := true }) := by
  constructor
  · intro ctx dt s k h
    rcases h with h | h <;> simp [updateGameLogic, h]
  · intro s
    rfl

/-- Witness for C9: a concrete paused store passes through unchanged. -/
theorem C9_pause_frame_effect_witness :
    updateGameLogic sampleCtx 16 { baseStore with isPaused := true } 0 =
      ({ baseStore with isPaused := true }, 0) :=
  C9_pause_frame_effect.1 sampleCtx 16 _ 0 (Or.inr rfl)

/-- C10: from any in-bounds position, `movePlayer` in either direction with
any nonnegative `deltaTime` keeps the player's x inside
`[0, canvasWidth - playerWidth]`, and rewrites nothing but `position.x`
(the game's config has nonnegative speed, taken as a hypothesis). -/
theorem C10_move_player_bounds (s : GameStore) (direction : Direction)
    (deltaTime : ℚ) (hdt : 0 ≤ deltaTime) (hsp : 0 ≤ s.config.playerSpeed)
    (hx0 : 0 ≤ s.player.position.x)
    (hx1 : s.player.position.x ≤ s.config.canvasWidth - s.player.size.width) :
    0 ≤ (movePlayer s direction deltaTime).player.position.x ∧
    (movePlayer s direction deltaTime).player.position.x ≤
      s.config.canvasWidth - s.player.size.width ∧
    movePlayer s direction deltaTime =
      { s with player := { s.player with position :=
          { s.player.position with
            x := (movePlayer s direction deltaTime).player.position.x } } } := by
  have hspeed : 0 ≤ s.config.playerSpeed * (deltaTime / 1000) := by positivity
  cases direction with
  | left =>
    refine ⟨le_max_left _ _, ?_, rfl⟩
    apply max_le (by linarith)
    linarith
  | right =>
    refine ⟨?_, min_le_left _ _, rfl⟩
    apply le_min (by linarith)
    linarith

/-- The enemy of end-to-end scenario C: `health = 40`, `shield = 25`. -/
def scenarioCEnemy : Enemy :=
  { id := "e1", position := ⟨100, 100⟩, velocity := ⟨0, 0⟩, size := ⟨40, 40⟩,
    health := 40, maxHealth := 40, isActive := true, type := .shielded,
    points := 150, shootCooldown := 5000, lastShot := 0,
    movementPattern := .diagonal, attackPattern := .single, level := 6,
    armor := 1, shield := 25, maxShield := 25, specialAbilityCharge := 100,
    spawnTime := 0, lastAbilityUse := 0 }

/-- The player bullet of scenario C: damage 30, overlapping the enemy. -/
def scenarioCBullet : Bullet :=
  { id := "pb1", position := ⟨110, 104⟩, velocity := ⟨0, -400⟩, size := ⟨4, 8⟩,
    health := 1, maxHealth := 1, isActive := true, damage := 30,
    owner := .player, bulletType := .basic, piercing := false,
    explosive := false }

/-- The store of scenario C. -/
def scenarioCStore : GameStore :=
  { baseStore with enemies := [scenarioCEnemy], bullets := [scenarioCBullet] }

/-- C2: in the player-bullet collision handler, damage `d ≤ shield` leaves
health unchanged and removes exactly `d` from the shield, while `d > shield`
zeroes the shield and removes exactly `d - shield` from health; concretely,
running full collision resolution on an enemy with `health = 40, shield = 25`
hit by a damage-30 bullet leaves it with `shield = 0, health = 35`. -/
theorem C2_shield_damage :
    (∀ d health shield : ℚ, 0 ≤ d → 0 ≤ shield →
      (d ≤ shield → hitOutcome d health shield = (health, shield - d)) ∧
      (shield < d → hitOutcome d health shield = (health - (d - shield), 0))) ∧
    ((checkCollisions sampleCtx scenarioCStore 0).1.enemies.map
      (fun e => (e.health, e.shield))) = [(35, 0)] := by
  constructor
  · intro d health shield hd hsh
    constructor
    · intro hds
      rcases lt_or_eq_of_le hsh with hpos | hzero
      · simp [hitOutcome, hpos, hds]
      · have hd0 : d = 0 := le_antisymm (hzero ▸ hds) hd
        subst hd0
        rw [← hzero]
        norm_num [hitOutcome]
    · intro hsd
      rcases lt_or_eq_of_le hsh with hpos | hzero
      · have hnd : ¬ d ≤ shield := not_le.mpr hsd
        simp [hitOutcome, hpos, hnd, sub_pos.mpr hsd]
      · rw [← hzero]
        rw [← hzero] at hsd
        norm_num [hitOutcome, hsd]
  · with_unfolding_all decide

/-- Witness for C2: the `d > shield` law evaluated at damage 30 against
health 40 and shield 25. -/
theorem C2_shield_damage_witness :
    hitOutcome 30 40 25 = (40 - (30 - 25), 0) :=
  (C2_shield_damage.1 30 40 25 (by norm_num) (by norm_num)).2 (by norm_num)

/-- A level-7 regenerator with an empty shield, at the spawn-time stats the
factory produces. -/
def capRegenerator : Enemy :=
  { id := "r1", position := ⟨100, 100⟩, velocity := ⟨0, 0⟩, size := ⟨35, 35⟩,
    health := 60, maxHealth := 60, isActive := true, type := .regenerator,
    points := 175, shootCooldown := 5000, lastShot := 0,
    movementPattern := .evasive, attackPattern := .spread, level := 7,
    armor := 2, shield := 0, maxShield := 0, specialAbilityCharge := 100,
    spawnTime := 0, lastAbilityUse := 0 }

/-- The `i`-th basic filler enemy, placed away from bullet and player. -/
def capBasic (i : ℕ) : Enemy :=
  { id := "b" ++ toString i, position := ⟨50 + 60 * (i : ℚ), 300⟩,
    velocity := ⟨0, 0⟩, size := ⟨35, 35⟩, health := 25, maxHealth := 25,
    isActive := true, type := .basic, points := 50, shootCooldown := 5000,
    lastShot := 0, movementPattern := .linear, attackPattern := .none,
    level := 7, armor := 2, shield := 0, maxShield := 0,
    specialAbilityCharge := 100, spawnTime := 0, lastAbilityUse := 0 }

/-- A lethal player bullet overlapping only the regenerator. -/
def capBullet : Bullet :=
  { id := "pb1", position := ⟨110, 104⟩, velocity := ⟨0, -400⟩, size := ⟨4, 8⟩,
    health := 1, maxHealth := 1, isActive := true, damage := 1000,
    owner := .player, bulletType := .basic, piercing := false,
    explosive := false }

/-- A level-7 store (cap = 11) holding exactly 11 enemies, one of them the
regenerator about to be killed by `capBullet`. -/
def capStore : GameStore :=
  { baseStore with
    level := 7
    enemies := capRegenerator :: (List.range 10).map capBasic
    bullets := [capBullet] }

/-- C7 counterexample: with the enemy collection exactly at
`getMaxEnemiesForLevel 7 = 11` outside a boss battle, one collision step that
kills the regenerator leaves 12 enemies — the split adds two swarm enemies
with no cap check, exceeding the cap. -/
theorem C7_enemy_cap_cex :
    capStore.isBossBattle = false ∧
    (capStore.enemies.length : ℤ) = getMaxEnemiesForLevel capStore.level ∧
    ((checkCollisions sampleCtx capStore 0).1.enemies.length : ℤ) >
      getMaxEnemiesForLevel capStore.level := by
  with_unfolding_all decide

/-- C7 (amended): `getMaxEnemiesForLevel` is `min 25 (8 + ⌊(level-1)/2⌋)`,
and outside boss battles `spawnEnemies` never pushes the enemy count above
it; but the regenerator death split performs no cap check — it always
appends exactly 2 swarm enemies (a net gain of 1 after the kill), so a
collision step can leave the collection above the cap. -/
theorem C7_enemy_cap_amended :
    (∀ level : ℤ, getMaxEnemiesForLevel level = min 25 (8 + (level - 1).fdiv 2)) ∧
    (∀ (ctx : Ctx) (s : GameStore) (k : ℕ), s.isBossBattle = false →
      (s.enemies.length : ℤ) ≤ getMaxEnemiesForLevel s.level →
      ((spawnEnemies ctx s k).1.enemies.length : ℤ) ≤
        getMaxEnemiesForLevel s.level) ∧
    (∀ (ctx : Ctx) (enemy : Enemy) (s : GameStore) (k : ℕ),
      (splitRegenerator ctx enemy s k).1.enemies.length =
        s.enemies.length + 2) := by
  refine ⟨?_, ?_, ?_⟩
  · intro level
    simp [getMaxEnemiesForLevel]
  · intro ctx s k hb hle
    by_cases hcap : (s.enemies.length : ℤ) ≥ getMaxEnemiesForLevel s.level
    · simpa [spawnEnemies, hb, hcap] using hle
    · by_cases ht : s.lastSpawnTime = 0 ∨
          ctx.now - s.lastSpawnTime > getSpawnRate s.level
      · simp only [spawnEnemies, hb, Bool.false_eq_true, if_false, hcap,
          ht, if_true, addEnemy, List.length_append, List.length_singleton]
        push_cast
        omega
      · simpa [spawnEnemies, hb, hcap, ht] using hle
  · intro ctx enemy s k
    simp [splitRegenerator, addEnemy, createEnemy]

/-- Witness for C7 (amended): a spawn step from the fresh store stays within
the level-1 cap. -/
theorem C7_enemy_cap_amended_witness :
    ((spawnEnemies sampleCtx baseStore 0).1.enemies.length : ℤ) ≤
      getMaxEnemiesForLevel baseStore.level :=
  C7_enemy_cap_amended.2.1 sampleCtx baseStore 0 rfl
    (by with_unfolding_all decide)

/-- C6: during a boss battle, `spawnEnemies` leaves the store untouched when
a boss-type enemy is present, and otherwise appends exactly one boss-type
enemy; every call during a boss battle adds nothing but (at most one) boss,
so at most one boss ever exists. -/
theorem C6_boss_spawn_guard (ctx : Ctx) (s : GameStore) (k : ℕ)
    (h : s.isBossBattle = true) :
    ((∃ e ∈ s.enemies, e.type = EnemyType.boss) → spawnEnemies ctx s k = (s, k)) ∧
    ((∀ e ∈ s.enemies, e.type ≠ EnemyType.boss) →
      ∃ boss : Enemy, boss.type = EnemyType.boss ∧
        (spawnEnemies ctx s k).1.enemies = s.enemies ++ [boss]) ∧
    (∀ e ∈ (spawnEnemies ctx s k).1.enemies,
      e ∈ s.enemies ∨ e.type = EnemyType.boss) ∧
    (s.enemies.countP (fun e => decide (e.type = EnemyType.boss)) ≤ 1 →
      (spawnEnemies ctx s k).1.enemies.countP
        (fun e => decide (e.type = EnemyType.boss)) ≤ 1) := by
  by_cases hnil :
      (s.enemies.filter (fun e => decide (e.type = EnemyType.boss))).length = 0
  · have hspawn : spawnEnemies ctx s k =
        (addEnemy s (createEnemy ctx s .boss
          (some (s.config.canvasWidth / 2 - 40)) (some (-80)) k).1,
         (createEnemy ctx s .boss
          (some (s.config.canvasWidth / 2 - 40)) (some (-80)) k).2) := by
      simp [spawnEnemies, h, hnil]
    have hall : ∀ e ∈ s.enemies, e.type ≠ EnemyType.boss := by
      rw [List.length_eq_zero, List.filter_eq_nil_iff] at hnil
      intro e he
      simpa using hnil e he
    have hbosstype : (createEnemy ctx s .boss
        (some (s.config.canvasWidth / 2 - 40)) (some (-80)) k).1.type =
        EnemyType.boss := rfl
    refine ⟨?_, ?_, ?_, ?_⟩
    · rintro ⟨e, he, hb⟩
      exact absurd hb (hall e he)
    · intro _
      exact ⟨_, hbosstype, by rw [hspawn]; rfl⟩
    · intro e he
      rw [hspawn] at he
      simp only [addEnemy] at he
      rcases List.mem_append.mp he with h1 | h1
      · exact Or.inl h1
      · right
        rw [List.mem_singleton.mp h1]
        exact hbosstype
    · intro _
      rw [hspawn]
      simp only [addEnemy, List.countP_append]
      have h0 : s.enemies.countP (fun e => decide (e.type = EnemyType.boss)) = 0 := by
        rw [List.countP_eq_length_filter]
        exact hnil
      rw [h0]
      simp [List.countP_cons, hbosstype]
  · have hid : spawnEnemies ctx s k = (s, k) := by
      simp [spawnEnemies, h, hnil]
    refine ⟨fun _ => hid, ?_, ?_, ?_⟩
    · intro hall
      exfalso
      have hpos : 0 <
          (s.enemies.filter (fun e => decide (e.type = EnemyType.boss))).length :=
        Nat.pos_of_ne_zero hnil
      rcases List.exists_mem_of_length_pos hpos with ⟨e, he⟩
      exact hall e (List.mem_filter.mp he).1
        (by simpa using (List.mem_filter.mp he).2)
    · intro e he
      rw [hid] at he
      exact Or.inl he
    · intro hle
      rw [hid]
      exact hle

/-- Witness for C6: from a boss battle with an empty collection, one call
spawns exactly one boss-type enemy. -/
theorem C6_boss_spawn_guard_witness :
    ∃ boss : Enemy, boss.type = EnemyType.boss ∧
      (spawnEnemies sampleCtx { baseStore with isBossBattle := true } 0).1.enemies =
        ({ baseStore with isBossBattle := true } : GameStore).enemies ++ [boss] :=
  (C6_boss_spawn_guard sampleCtx { baseStore with isBossBattle := true } 0
      rfl).2.1 (by intro e he; exact absurd he (List.not_mem_nil e))

/-- C8: with ship level 2 and the bullet-cap and cooldown guards passing,
`playerShoot` appends exactly 3 bullets, each non-piercing at 0.8 times the
base damage; the middle one flies straight up and the outer two are mirror
images across the vertical at the 0.3 rad spread angle (stated for any
injected sine/cosine that are odd/even with the standard values at 0). -/
theorem C8_multishot_spread (ctx : Ctx) (s : GameStore) (k : ℕ)
    (hship : s.player.shipLevel = 2)
    (hcap : (s.bullets.filter
        (fun b => decide (b.owner = BulletOwner.player))).length <
      s.config.bulletsMaxOnScreen)
    (hcd : ¬ ctx.now - s.lastFrameTime < 200)
    (hs0 : ctx.msin 0 = 0) (hc0 : ctx.mcos 0 = 1)
    (hodd : ∀ x, ctx.msin (-x) = -ctx.msin x)
    (heven : ∀ x, ctx.mcos (-x) = ctx.mcos x) :
    ∃ b1 b2 b3 : Bullet,
      (playerShoot ctx s k).1.bullets = s.bullets ++ [b1, b2, b3] ∧
      b1.piercing = false ∧ b2.piercing = false ∧ b3.piercing = false ∧
      b1.damage = 25 * (s.player.weaponLevel : ℚ) * (8 / 10) ∧
      b2.damage = 25 * (s.player.weaponLevel : ℚ) * (8 / 10) ∧
      b3.damage = 25 * (s.player.weaponLevel : ℚ) * (8 / 10) ∧
      b2.velocity = ⟨0, -s.config.bulletsSpeed⟩ ∧
      b1.velocity.x = -b3.velocity.x ∧
      b1.velocity.y = b3.velocity.y ∧
      b3.velocity = ⟨ctx.msin (3 / 10) * s.config.bulletsSpeed * (5 / 10),
        -(ctx.mcos (3 / 10) * s.config.bulletsSpeed)⟩ := by
  have h21 : ((2 : ℚ) - 1) * (3 / 10) = 3 / 10 := by norm_num
  refine ⟨
    { id := "bullet-" ++ qstr ctx.now ++ "-" ++ qstr (ctx.rand k) ++ "-" ++
        toString 0
      position := ⟨s.player.position.x + s.player.size.width / 2 - 2,
        s.player.position.y⟩
      velocity := ⟨ctx.msin (-(3 / 10)) * s.config.bulletsSpeed * (5 / 10),
        -(ctx.mcos (-(3 / 10)) * s.config.bulletsSpeed)⟩
      size := ⟨3, 6⟩, health := 1, maxHealth := 1, isActive := true
      damage := 25 * (s.player.weaponLevel : ℚ) * (8 / 10)
      owner := BulletOwner.player, bulletType := BulletType.multiShot
      piercing := false, explosive := false },
    { id := "bullet-" ++ qstr ctx.now ++ "-" ++ qstr (ctx.rand (k + 1)) ++
        "-" ++ toString 1
      position := ⟨s.player.position.x + s.player.size.width / 2 - 2,
        s.player.position.y⟩
      velocity := ⟨ctx.msin 0 * s.config.bulletsSpeed * (5 / 10),
        -(ctx.mcos 0 * s.config.bulletsSpeed)⟩
      size := ⟨3, 6⟩, health := 1, maxHealth := 1, isActive := true
      damage := 25 * (s.player.weaponLevel : ℚ) * (8 / 10)
      owner := BulletOwner.player, bulletType := BulletType.multiShot
      piercing := false, explosive := false },
    { id := "bullet-" ++ qstr ctx.now ++ "-" ++ qstr (ctx.rand (k + 2)) ++
        "-" ++ toString 2
      position := ⟨s.player.position.x + s.player.size.width / 2 - 2,
        s.player.position.y⟩
      velocity := ⟨ctx.msin (3 / 10) * s.config.bulletsSpeed * (5 / 10),
        -(ctx.mcos (3 / 10) * s.config.bulletsSpeed)⟩
      size := ⟨3, 6⟩, health := 1, maxHealth := 1, isActive := true
      damage := 25 * (s.player.weaponLevel : ℚ) * (8 / 10)
      owner := BulletOwner.player, bulletType := BulletType.multiShot
      piercing := false, explosive := false },
    ?_, rfl, rfl, rfl, rfl, rfl, rfl, ?_, ?_, ?_, rfl⟩
  · simp [playerShoot, hship, not_le.mpr hcap, hcd, addBullet,
      incrementBulletsFired, h21]
  · simp only [Vec2.mk.injEq]
    constructor
    · rw [hs0]
      ring
    · rw [hc0]
      ring
  · simp only
    rw [hodd]
    ring
  · simp only
    rw [heven]

/-- Witness for C8 at a concrete upgraded store, with the identity as the
injected (odd) sine and the constant 1 as the injected (even) cosine. -/
theorem C8_multishot_spread_witness :
    ∃ b1 b2 b3 : Bullet,
      (playerShoot sampleCtx
          { baseStore with player := { createInitialPlayer with shipLevel := 2 } }
          0).1.bullets =
        ({ baseStore with
            player := { createInitialPlayer with shipLevel := 2 } } :
          GameStore).bullets ++ [b1, b2, b3] ∧
      b1.piercing = false ∧ b2.piercing = false ∧ b3.piercing = false ∧
      b1.damage = 25 * (({ baseStore with
          player := { createInitialPlayer with shipLevel := 2 } } :
        GameStore).player.weaponLevel : ℚ) * (8 / 10) ∧
      b2.damage = 25 * (({ baseStore with
          player := { createInitialPlayer with shipLevel := 2 } } :
        GameStore).player.weaponLevel : ℚ) * (8 / 10) ∧
      b3.damage = 25 * (({ baseStore with
          player := { createInitialPlayer with shipLevel := 2 } } :
        GameStore).player.weaponLevel : ℚ) * (8 / 10) ∧
      b2.velocity = ⟨0, -({ baseStore with
          player := { createInitialPlayer with shipLevel := 2 } } :
        GameStore).config.bulletsSpeed⟩ ∧
      b1.velocity.x = -b3.velocity.x ∧
      b1.velocity.y = b3.velocity.y ∧
      b3.velocity = ⟨sampleCtx.msin (3 / 10) * ({ baseStore with
          player := { createInitialPlayer with shipLevel := 2 } } :
        GameStore).config.bulletsSpeed * (5 / 10),
        -(sampleCtx.mcos (3 / 10) * ({ baseStore with
            player := { createInitialPlayer with shipLevel := 2 } } :
          GameStore).config.bulletsSpeed)⟩ :=
  C8_multishot_spread sampleCtx
    { baseStore with player := { createInitialPlayer with shipLevel := 2 } } 0
    rfl (by with_unfolding_all decide) (by with_unfolding_all decide)
    rfl rfl (fun x => rfl) (fun x => rfl)

/-- C4 counterexample: the claimed round trip fails at level 5, where
`getScoreForNextLevel` returns 5000 but level 6 actually starts at 6500:
`calculateLevelFromScore (getScoreForNextLevel 5) = 5`, not `6`. -/
theorem C4_level_math_cex :
    calculateLevelFromScore (getScoreForNextLevel 5) ≠ 5 + 1 := by
  with_unfolding_all decide

/-- C4 (amended): the round trip
`calculateLevelFromScore (getScoreForNextLevel n) = n + 1` holds only for
`1 ≤ n ≤ 4`; from `n = 5` on, `getScoreForNextLevel n` is the first score of
level `n` itself, so the round trip yields `n`.  Accordingly the half-open
score interval `[getScoreForNextLevel (n-1), getScoreForNextLevel n)` maps to
level `n` for `1 ≤ n ≤ 5` but to level `n - 1` for `n ≥ 6`. -/
theorem C4_level_math_amended (n : ℤ) :
    (1 ≤ n → n ≤ 4 → calculateLevelFromScore (getScoreForNextLevel n) = n + 1) ∧
    (5 ≤ n → calculateLevelFromScore (getScoreForNextLevel n) = n) ∧
    (∀ s : ℚ, getScoreForNextLevel (n - 1) ≤ s → s < getScoreForNextLevel n →
      (1 ≤ n → n ≤ 5 → calculateLevelFromScore s = n) ∧
      (6 ≤ n → calculateLevelFromScore s = n - 1)) := by
  refine ⟨?_, ?_, ?_⟩
  · intro h1 h4
    have hle : n ≤ 5 := by omega
    have hnext : getScoreForNextLevel n = (n : ℚ) * 1000 := by
      simp [getScoreForNextLevel, hle, EARLY_POINTS_PER_LEVEL]
    have hcast4 : (n : ℚ) ≤ 4 := by exact_mod_cast h4
    have hlt : (n : ℚ) * 1000 < EARLY_POINTS_PER_LEVEL * 5 := by
      simp only [EARLY_POINTS_PER_LEVEL]
      linarith
    rw [hnext]
    simp only [calculateLevelFromScore, hlt, if_true]
    have hdiv : (n : ℚ) * 1000 / EARLY_POINTS_PER_LEVEL = (n : ℚ) := by
      simp only [EARLY_POINTS_PER_LEVEL]
      field_simp
    rw [hdiv, Int.floor_intCast]
  · intro h5
    rw [getScoreForNextLevel_late h5]
    have h := calc_late (le_refl (reqSum 1500 (n - 5).toNat))
      (reqSum_lt_succ (by norm_num) (n - 5).toNat)
    rw [h]
    omega
  · intro s hs1 hs2
    constructor
    · intro h1 h5
      have hlem1 : n - 1 ≤ 5 := by omega
      have hnext1 : getScoreForNextLevel (n - 1) = ((n : ℚ) - 1) * 1000 := by
        simp only [getScoreForNextLevel, hlem1, if_true, EARLY_POINTS_PER_LEVEL]
        push_cast
        ring
      have hnext2 : getScoreForNextLevel n = (n : ℚ) * 1000 := by
        simp [getScoreForNextLevel, h5, EARLY_POINTS_PER_LEVEL]
      rw [hnext1] at hs1
      rw [hnext2] at hs2
      have hcast5 : (n : ℚ) ≤ 5 := by exact_mod_cast h5
      have hlt : s < EARLY_POINTS_PER_LEVEL * 5 := by
        simp only [EARLY_POINTS_PER_LEVEL]
        linarith
      simp only [calculateLevelFromScore, hlt, if_true]
      have hfloor : ⌊s / EARLY_POINTS_PER_LEVEL⌋ = n - 1 := by
        rw [Int.floor_eq_iff]
        constructor
        · simp only [EARLY_POINTS_PER_LEVEL]
          rw [le_div_iff₀ (by norm_num : (0:ℚ) < 1000)]
          push_cast
          linarith
        · simp only [EARLY_POINTS_PER_LEVEL]
          rw [div_lt_iff₀ (by norm_num : (0:ℚ) < 1000)]
          push_cast
          linarith
      rw [hfloor]
      ring
    · intro h6
      have hprev : getScoreForNextLevel (n - 1) =
          5000 + reqSum 1500 (n - 6).toNat := by
        have h := @getScoreForNextLevel_late (n - 1) (by omega)
        have he : n - 1 - 5 = n - 6 := by ring
        rw [he] at h
        exact h
      have hcur : getScoreForNextLevel n = 5000 + reqSum 1500 (n - 5).toNat :=
        getScoreForNextLevel_late (by omega)
      have htn : (n - 5).toNat = (n - 6).toNat + 1 := by omega
      rw [hprev] at hs1
      rw [hcur, htn] at hs2
      have hs : s = 5000 + (s - 5000) := by ring
      rw [hs]
      have h := @calc_late (s - 5000) ((n - 6).toNat)
        (by linarith) (by linarith)
      rw [h]
      omega

/-- Witness for C4 (amended): at `n = 6` the interval
`[getScoreForNextLevel 5, getScoreForNextLevel 6) = [5000, 6500)` maps to
level `6 - 1 = 5`, checked at the score 5500. -/
theorem C4_level_math_amended_witness :
    calculateLevelFromScore 5500 = 6 - 1 :=
  ((C4_level_math_amended 6).2.2 5500 (by with_unfolding_all decide)
    (by with_unfolding_all decide)).2 (by norm_num)

/-- Witness for C10: the fresh player moved left for one 16 ms frame stays
inside the canvas. -/
theorem C10_move_player_bounds_witness :
    0 ≤ (movePlayer baseStore Direction.left 16).player.position.x ∧
    (movePlayer baseStore Direction.left 16).player.position.x ≤
      baseStore.config.canvasWidth - baseStore.player.size.width :=
  ⟨(C10_move_player_bounds baseStore Direction.left 16 (by norm_num)
      (by with_unfolding_all decide) (by with_unfolding_all decide)
      (by with_unfolding_all decide)).1,
   (C10_move_player_bounds baseStore Direction.left 16 (by norm_num)
      (by with_unfolding_all decide) (by with_unfolding_all decide)
      (by with_unfolding_all decide)).2.1⟩

end Invador
